import Mathlib

/-!
Verification of the nas-detail booking core: the booking state machine
(BookingService), the validation engine (BookingValidationService) and the
pricing calculator, shallowly embedded from the TypeScript source files
src/app/core and src/app/services. Numbers are modelled as rationals;
JavaScript runtime values reachable by the validation engine are modelled
by the JSVal type, where a Date instance carries its epoch value and has an
empty set of own enumerable keys; the ambient clock read by the source via
new Date() is an explicit Clock parameter.
-/

namespace NasDetail

/-! ### JavaScript runtime values as seen by the validation engine -/

inductive JSVal where
  | null
  | str (s : String)
  | num (q : ℚ)
  | bool (b : Bool)
  | date (ms : Int)
  | arr (xs : List JSVal)
  | obj (fields : List (String × JSVal))

/-- JavaScript whitespace characters relevant here (the backslash-s class). -/
def jsWhitespace (c : Char) : Bool :=
  c == ' ' || c == '\t' || c == '\n' || c == '\r' || c == Char.ofNat 11 || c == Char.ofNat 12

/-- String.prototype.trim: strip whitespace from both ends. -/
def trimJS (s : String) : String :=
  String.mk (((s.toList.dropWhile jsWhitespace).reverse.dropWhile jsWhitespace).reverse)

/-- BookingValidationService.isEmpty: null and undefined are empty, a string is
empty when its trimmed length is zero, an array when it has no elements, and
any other object when it has no own enumerable keys, which includes every
Date instance; numbers and booleans are never empty. -/
def isEmpty : JSVal → Bool
  | .null => true
  | .str s => (trimJS s).length == 0
  | .arr xs => xs.isEmpty
  | .date _ => true
  | .obj fields => fields.isEmpty
  | .num _ => false
  | .bool _ => false

/-- BookingValidationService.getLength: length of strings and arrays, zero otherwise. -/
def getLength : JSVal → Nat
  | .str s => s.length
  | .arr xs => xs.length
  | _ => 0

/-- JavaScript falsiness, used by the custom validators that negate their value. -/
def jsFalsy : JSVal → Bool
  | .null => true
  | .str s => s == ""
  | .num q => q == 0
  | .bool b => !b
  | .date _ => false
  | .arr _ => false
  | .obj _ => false

mutual

/-- JavaScript String(value) coercion on the values that can reach a pattern
rule; numeric and date formatting is left blank as no schema pattern is ever
applied to those. -/
def jsToString : JSVal → String
  | .null => "null"
  | .str s => s
  | .num _ => ""
  | .bool b => if b then "true" else "false"
  | .date _ => ""
  | .arr xs => String.intercalate "," (jsToStringList xs)
  | .obj _ => "[object Object]"

def jsToStringList : List JSVal → List String
  | [] => []
  | x :: xs => jsToString x :: jsToStringList xs

end

/-- Split a character list at every occurrence of the separator, keeping empty
pieces, as JavaScript String.prototype.split with a single-character separator
does. -/
def splitListOn (sep : Char) : List Char → List (List Char)
  | [] => [[]]
  | c :: rest =>
      match splitListOn sep rest with
      | piece :: tail => if c == sep then [] :: piece :: tail else (c :: piece) :: tail
      | [] => [[]]

/-- JavaScript path.split with the dot separator. -/
def splitOnDot (s : String) : List String :=
  (splitListOn '.' s.toList).map String.mk

/-- One step of the optional-chained property access current?.[key]. -/
def getProp (v : JSVal) (key : String) : JSVal :=
  match v with
  | .obj fields =>
      match fields.lookup key with
      | some x => x
      | none => .null
  | _ => .null

/-- BookingValidationService.getNestedValue: split the path on dots and reduce
with optional-chained access. -/
def getNestedValue (v : JSVal) (path : String) : JSVal :=
  (splitOnDot path).foldl getProp v

/-! ### A small regular-expression engine (Brzozowski derivatives) for the
literal patterns of the validation schema -/

inductive Regex where
  | fail
  | eps
  | cls (p : Char → Bool)
  | seq (a b : Regex)
  | alt (a b : Regex)
  | star (a : Regex)

def Regex.nullable : Regex → Bool
  | .fail => false
  | .eps => true
  | .cls _ => false
  | .seq a b => a.nullable && b.nullable
  | .alt a b => a.nullable || b.nullable
  | .star _ => true

def Regex.deriv : Regex → Char → Regex
  | .fail, _ => .fail
  | .eps, _ => .fail
  | .cls p, c => if p c then .eps else .fail
  | .seq a b, c =>
      if a.nullable then .alt (.seq (a.deriv c) b) (b.deriv c) else .seq (a.deriv c) b
  | .alt a b, c => .alt (a.deriv c) (b.deriv c)
  | .star a, c => .seq (a.deriv c) (.star a)

/-- RegExp.prototype.test for a whole-string (anchored) pattern. -/
def Regex.rtest (r : Regex) (s : String) : Bool :=
  (s.toList.foldl Regex.deriv r).nullable

def Regex.opt (r : Regex) : Regex := .alt .eps r

def Regex.plus (r : Regex) : Regex := .seq r (.star r)

def Regex.rep (r : Regex) : Nat → Regex
  | 0 => .eps
  | n + 1 => .seq r (Regex.rep r n)

def apostropheChar : Char := Char.ofNat 39

/-- Schema pattern for first and last names: letters, whitespace, apostrophe
and hyphen, one or more, anchored. -/
def namePattern : Regex :=
  Regex.plus (.cls (fun c => c.isAlpha || jsWhitespace c || c == apostropheChar || c == '-'))

/-- Schema pattern for email: nonempty runs without whitespace or at-sign,
joined by an at-sign and a dot, anchored. -/
def emailPattern : Regex :=
  let nonAtSpace : Regex := .cls (fun c => !(jsWhitespace c || c == '@'))
  .seq (Regex.plus nonAtSpace) (.seq (.cls (fun c => c == '@'))
    (.seq (Regex.plus nonAtSpace) (.seq (.cls (fun c => c == '.')) (Regex.plus nonAtSpace))))

/-- Schema pattern for phone numbers: optional plus, optional opening paren,
optional plus, three digits, optional closing paren, optional separator,
three digits, optional separator, four digits, anchored. -/
def phonePattern : Regex :=
  let digit : Regex := .cls Char.isDigit
  let sep : Regex := .cls (fun c => c == '-' || jsWhitespace c || c == '.')
  .seq (Regex.opt (.cls (fun c => c == '+')))
    (.seq (Regex.opt (.cls (fun c => c == '(')))
      (.seq (Regex.opt (.cls (fun c => c == '+')))
        (.seq (Regex.rep digit 3)
          (.seq (Regex.opt (.cls (fun c => c == ')')))
            (.seq (Regex.opt sep)
              (.seq (Regex.rep digit 3)
                (.seq (Regex.opt sep) (Regex.rep digit 4))))))))

/-- Schema pattern for license plates, case-insensitive: letters, digits,
hyphen and whitespace, one or more, anchored. -/
def licensePlatePattern : Regex :=
  Regex.plus (.cls (fun c => c.isAlpha || c.isDigit || c == '-' || jsWhitespace c))

/-- ZIP code pattern used inside the step-4 zipCode custom validator:
five digits optionally followed by a hyphen and four digits, anchored. -/
def zipPattern : Regex :=
  .seq (Regex.rep (.cls Char.isDigit) 5)
    (Regex.opt (.seq (.cls (fun c => c == '-')) (Regex.rep (.cls Char.isDigit) 4)))

/-! ### Data model (booking.models.ts) -/

inductive SizeCategory where
  | small | medium | large | xlarge
  deriving DecidableEq

def SizeCategory.toKey : SizeCategory → String
  | .small => "small"
  | .medium => "medium"
  | .large => "large"
  | .xlarge => "xlarge"

inductive LocationType where
  | mobile | shop
  deriving DecidableEq

def LocationType.toKey : LocationType → String
  | .mobile => "mobile"
  | .shop => "shop"

structure ServiceType where
  id : String
  name : String
  description : String
  basePrice : ℚ
  duration : ℚ
  category : String
  available : Bool
  deriving DecidableEq

structure ServiceLevel where
  id : String
  name : String
  description : String
  priceMultiplier : ℚ
  features : List String
  deriving DecidableEq

structure Vehicle where
  id : Option String := none
  make : String
  model : String
  year : ℚ
  color : String
  licensePlate : String
  vehicleType : String
  sizeCategory : SizeCategory
  condition : Option String := none
  notes : Option String := none
  deriving DecidableEq

structure TimeSlot where
  id : String
  startTime : Int
  endTime : Int
  available : Bool
  price : Option ℚ := none
  deriving DecidableEq

structure AvailableDay where
  date : Int
  slots : List TimeSlot
  fullyBooked : Bool
  deriving DecidableEq

structure Coordinates where
  latitude : ℚ
  longitude : ℚ
  deriving DecidableEq

structure Address where
  street : String
  city : String
  state : String
  zipCode : String
  country : String
  coordinates : Option Coordinates := none
  deriving DecidableEq

structure ShopLocation where
  id : String
  name : String
  address : String
  phone : String
  hours : String
  deriving DecidableEq

structure Location where
  type : LocationType
  address : Option Address := none
  shopLocation : Option ShopLocation := none
  deriving DecidableEq

structure ContactInfo where
  firstName : String
  lastName : String
  email : String
  phone : String
  preferredContact : String
  specialInstructions : Option String := none
  deriving DecidableEq

structure BookingStep1Data where
  selectedService : Option ServiceType
  selectedLevel : Option ServiceLevel
  preSelectedService : Option String := none
  deriving DecidableEq

structure BookingStep2Data where
  selectedVehicle : Option Vehicle
  isNewVehicle : Bool
  vehicles : List Vehicle
  deriving DecidableEq

structure BookingStep3Data where
  selectedDate : Option Int
  selectedTimeSlot : Option TimeSlot
  availableDays : List AvailableDay
  deriving DecidableEq

structure BookingStep4Data where
  location : Location
  contactInfo : ContactInfo
  deriving DecidableEq

structure BookingStep5Data where
  termsAccepted : Bool
  marketingOptIn : Bool
  specialRequests : Option String := none
  deriving DecidableEq

structure BookingFormData where
  step1 : BookingStep1Data
  step2 : BookingStep2Data
  step3 : BookingStep3Data
  step4 : BookingStep4Data
  step5 : BookingStep5Data
  deriving DecidableEq

structure PricingBreakdown where
  servicePrice : ℚ
  levelMultiplier : ℚ
  vehicleSizeMultiplier : ℚ
  timeSlotSurcharge : ℚ
  locationSurcharge : ℚ
  taxes : ℚ
  discounts : ℚ
  total : ℚ
  deriving DecidableEq

structure BookingValidationError where
  step : Int
  field : String
  message : String
  code : String
  deriving DecidableEq

structure BookingState where
  currentStep : Int
  isLoading : Bool
  formData : BookingFormData
  validationErrors : List BookingValidationError
  pricing : Option PricingBreakdown
  availableServices : List ServiceType
  availableLevels : List ServiceLevel
  savedVehicles : List Vehicle
  isSubmitting : Bool
  submissionError : Option String
  deriving DecidableEq

def BOOKING_STEPS_SERVICE_SELECTION : Int := 1
def BOOKING_STEPS_VEHICLE_INFO : Int := 2
def BOOKING_STEPS_DATE_TIME : Int := 3
def BOOKING_STEPS_LOCATION_CONTACT : Int := 4
def BOOKING_STEPS_CONFIRMATION : Int := 5

def BOOKING_STEPS_KEYS : List String :=
  ["SERVICE_SELECTION", "VEHICLE_INFO", "DATE_TIME", "LOCATION_CONTACT", "CONFIRMATION"]

/-- MAX_BOOKING_STEPS is the number of keys of the BOOKING_STEPS object. -/
def MAX_BOOKING_STEPS : Int := BOOKING_STEPS_KEYS.length

def VEHICLE_SIZE_MULTIPLIERS : SizeCategory → ℚ
  | .small => 1.0
  | .medium => 1.2
  | .large => 1.5
  | .xlarge => 2.0

def LOCATION_SURCHARGES : LocationType → ℚ
  | .mobile => 25
  | .shop => 0

/-! ### JSVal encodings of the typed records, mirroring object key layout -/

def encodeOptField {α : Type} (key : String) (o : Option α) (enc : α → JSVal) :
    List (String × JSVal) :=
  match o with
  | some v => [(key, enc v)]
  | none => []

def encodeNullable {α : Type} (o : Option α) (enc : α → JSVal) : JSVal :=
  match o with
  | some v => enc v
  | none => .null

def encodeServiceType (s : ServiceType) : JSVal :=
  .obj [("id", .str s.id), ("name", .str s.name), ("description", .str s.description),
        ("basePrice", .num s.basePrice), ("duration", .num s.duration),
        ("category", .str s.category), ("available", .bool s.available)]

def encodeServiceLevel (l : ServiceLevel) : JSVal :=
  .obj [("id", .str l.id), ("name", .str l.name), ("description", .str l.description),
        ("priceMultiplier", .num l.priceMultiplier),
        ("features", .arr (l.features.map JSVal.str))]

def encodeVehicle (v : Vehicle) : JSVal :=
  .obj (encodeOptField "id" v.id JSVal.str ++
        [("make", .str v.make), ("model", .str v.model), ("year", .num v.year),
         ("color", .str v.color), ("licensePlate", .str v.licensePlate),
         ("vehicleType", .str v.vehicleType),
         ("sizeCategory", .str v.sizeCategory.toKey)] ++
        encodeOptField "condition" v.condition JSVal.str ++
        encodeOptField "notes" v.notes JSVal.str)

def encodeTimeSlot (t : TimeSlot) : JSVal :=
  .obj ([("id", .str t.id), ("startTime", .date t.startTime), ("endTime", .date t.endTime),
         ("available", .bool t.available)] ++
        encodeOptField "price" t.price JSVal.num)

def encodeAvailableDay (d : AvailableDay) : JSVal :=
  .obj [("date", .date d.date), ("slots", .arr (d.slots.map encodeTimeSlot)),
        ("fullyBooked", .bool d.fullyBooked)]

def encodeCoordinates (c : Coordinates) : JSVal :=
  .obj [("latitude", .num c.latitude), ("longitude", .num c.longitude)]

def encodeAddress (a : Address) : JSVal :=
  .obj ([("street", .str a.street), ("city", .str a.city), ("state", .str a.state),
         ("zipCode", .str a.zipCode), ("country", .str a.country)] ++
        encodeOptField "coordinates" a.coordinates encodeCoordinates)

def encodeShopLocation (s : ShopLocation) : JSVal :=
  .obj [("id", .str s.id), ("name", .str s.name), ("address", .str s.address),
        ("phone", .str s.phone), ("hours", .str s.hours)]

def encodeLocation (l : Location) : JSVal :=
  .obj ([("type", .str l.type.toKey)] ++
        encodeOptField "address" l.address encodeAddress ++
        encodeOptField "shopLocation" l.shopLocation encodeShopLocation)

def encodeContactInfo (c : ContactInfo) : JSVal :=
  .obj ([("firstName", .str c.firstName), ("lastName", .str c.lastName),
         ("email", .str c.email), ("phone", .str c.phone),
         ("preferredContact", .str c.preferredContact)] ++
        encodeOptField "specialInstructions" c.specialInstructions JSVal.str)

def encodeStep1 (d : BookingStep1Data) : JSVal :=
  .obj ([("selectedService", encodeNullable d.selectedService encodeServiceType),
         ("selectedLevel", encodeNullable d.selectedLevel encodeServiceLevel)] ++
        encodeOptField "preSelectedService" d.preSelectedService JSVal.str)

def encodeStep2 (d : BookingStep2Data) : JSVal :=
  .obj [("selectedVehicle", encodeNullable d.selectedVehicle encodeVehicle),
        ("isNewVehicle", .bool d.isNewVehicle),
        ("vehicles", .arr (d.vehicles.map encodeVehicle))]

def encodeStep3 (d : BookingStep3Data) : JSVal :=
  .obj [("selectedDate", encodeNullable d.selectedDate JSVal.date),
        ("selectedTimeSlot", encodeNullable d.selectedTimeSlot encodeTimeSlot),
        ("availableDays", .arr (d.availableDays.map encodeAvailableDay))]

def encodeStep4 (d : BookingStep4Data) : JSVal :=
  .obj [("location", encodeLocation d.location),
        ("contactInfo", encodeContactInfo d.contactInfo)]

def encodeStep5 (d : BookingStep5Data) : JSVal :=
  .obj ([("termsAccepted", .bool d.termsAccepted),
         ("marketingOptIn", .bool d.marketingOptIn)] ++
        encodeOptField "specialRequests" d.specialRequests JSVal.str)

inductive StepKey where
  | step1 | step2 | step3 | step4 | step5
  deriving DecidableEq

/-- BookingValidationService.getStepKey (BookingService has the same table). -/
def getStepKey (step : Int) : Option StepKey :=
  if step = 1 then some .step1
  else if step = 2 then some .step2
  else if step = 3 then some .step3
  else if step = 4 then some .step4
  else if step = 5 then some .step5
  else none

def stepDataJS (formData : BookingFormData) : StepKey → JSVal
  | .step1 => encodeStep1 formData.step1
  | .step2 => encodeStep2 formData.step2
  | .step3 => encodeStep3 formData.step3
  | .step4 => encodeStep4 formData.step4
  | .step5 => encodeStep5 formData.step5

/-! ### Validation engine (BookingValidationService) -/

/-- The ambient clock the source reads through new Date(). -/
structure Clock where
  currentYear : Int
  todayStart : Int
  now : Int

structure ValidationRule where
  required : Bool := false
  minLength : Option Nat := none
  maxLength : Option Nat := none
  pattern : Option Regex := none
  custom : Option (JSVal → BookingFormData → Option String) := none

abbrev StepValidation := List (String × List ValidationRule)

structure BookingValidationSchema where
  step1 : StepValidation
  step2 : StepValidation
  step3 : StepValidation
  step4 : StepValidation
  step5 : StepValidation

/-- BookingValidationService.validateYear: the year must lie between 1900 and
the current year plus one; non-numeric values compare false and pass. -/
def validateYear (clock : Clock) : JSVal → BookingFormData → Option String :=
  fun value _ =>
    match value with
    | .num year =>
        if year < 1900 ∨ year > (clock.currentYear : ℚ) + 1 then
          some ("Year must be between 1900 and " ++ toString (clock.currentYear + 1))
        else none
    | _ => none

/-- BookingValidationService.validateFutureDate: the selected date must not be
strictly before the start of today. -/
def validateFutureDate (clock : Clock) : JSVal → BookingFormData → Option String :=
  fun value _ =>
    match value with
    | .date ms =>
        if ms < clock.todayStart then some "Please select a future date" else none
    | _ => none

/-- BookingValidationService.createValidationSchema, field by field. -/
def createValidationSchema (clock : Clock) : BookingValidationSchema :=
  { step1 := [
      ("selectedService", [{ required := true }]),
      ("selectedLevel", [{ required := true }])],
    step2 := [
      ("selectedVehicle", [{ required := true }]),
      ("selectedVehicle.make",
        [{ required := true }, { minLength := some 2 }, { maxLength := some 50 }]),
      ("selectedVehicle.model",
        [{ required := true }, { minLength := some 1 }, { maxLength := some 50 }]),
      ("selectedVehicle.year",
        [{ required := true }, { custom := some (validateYear clock) }]),
      ("selectedVehicle.color",
        [{ required := true }, { minLength := some 3 }, { maxLength := some 30 }]),
      ("selectedVehicle.licensePlate",
        [{ required := true }, { minLength := some 2 }, { maxLength := some 10 },
         { pattern := some licensePlatePattern }]),
      ("selectedVehicle.vehicleType", [{ required := true }]),
      ("selectedVehicle.sizeCategory", [{ required := true }])],
    step3 := [
      ("selectedDate", [{ required := true }, { custom := some (validateFutureDate clock) }]),
      ("selectedTimeSlot", [{ required := true }])],
    step4 := [
      ("contactInfo.firstName",
        [{ required := true }, { minLength := some 2 }, { maxLength := some 50 },
         { pattern := some namePattern }]),
      ("contactInfo.lastName",
        [{ required := true }, { minLength := some 2 }, { maxLength := some 50 },
         { pattern := some namePattern }]),
      ("contactInfo.email", [{ required := true }, { pattern := some emailPattern }]),
      ("contactInfo.phone", [{ required := true }, { pattern := some phonePattern }]),
      ("contactInfo.preferredContact", [{ required := true }]),
      ("location.type", [{ required := true }]),
      ("location.address.street", [{ custom := some (fun value formData =>
          if formData.step4.location.type = LocationType.mobile ∧ jsFalsy value then
            some "Street address is required for mobile service"
          else none) }]),
      ("location.address.city", [{ custom := some (fun value formData =>
          if formData.step4.location.type = LocationType.mobile ∧ jsFalsy value then
            some "City is required for mobile service"
          else none) }]),
      ("location.address.zipCode", [{ custom := some (fun value formData =>
          if formData.step4.location.type = LocationType.mobile then
            (if jsFalsy value then some "ZIP code is required for mobile service"
             else if !(zipPattern.rtest (jsToString value)) then some "Invalid ZIP code format"
             else none)
          else none) }])],
    step5 := [
      ("termsAccepted", [{ custom := some (fun value _ =>
          if jsFalsy value then some "You must accept the terms and conditions to proceed"
          else none) }])] }

/-- Convert camelCase field paths to a readable label, as in the source. -/
def humanizeFieldName (fieldName : String) : String :=
  let lastPart := (splitOnDot fieldName).getLastD ""
  let spaced := (lastPart.toList.map (fun c => if c.isUpper then [' ', c] else [c])).flatten
  let upped :=
    match spaced with
    | [] => []
    | c :: rest => c.toUpper :: rest
  trimJS (String.mk upped)

def prefixOfChars : List Char → List Char → Bool
  | [], _ => true
  | _ :: _, [] => false
  | p :: ps, h :: hs => p == h && prefixOfChars ps hs

def containsSubAux (pat : List Char) : List Char → Bool
  | [] => prefixOfChars pat []
  | c :: rest => prefixOfChars pat (c :: rest) || containsSubAux pat rest

/-- String.prototype.includes. -/
def containsSub (s pat : String) : Bool :=
  containsSubAux pat.toList s.toList

def getPatternErrorMessage (fieldName : String) : String :=
  let field := fieldName.toLower
  if containsSub field "email" then "Please enter a valid email address"
  else if containsSub field "phone" then "Please enter a valid phone number"
  else if containsSub field "licenseplate" then
    "Please enter a valid license plate (letters and numbers only)"
  else if containsSub field "firstname" ∨ containsSub field "lastname" then
    "Name can only contain letters, spaces, hyphens, and apostrophes"
  else if containsSub field "zipcode" then "Please enter a valid ZIP code (12345 or 12345-6789)"
  else "Please enter a valid " ++ (humanizeFieldName fieldName).toLower

/-- The minLength guard: the rule value must be truthy (nonzero) and the
length below it. -/
def minLengthViolated (rule : ValidationRule) (value : JSVal) : Bool :=
  match rule.minLength with
  | some n => decide (0 < n) && decide (getLength value < n)
  | none => false

/-- The maxLength guard: the rule value must be truthy (nonzero) and the
length above it. -/
def maxLengthViolated (rule : ValidationRule) (value : JSVal) : Bool :=
  match rule.maxLength with
  | some n => decide (0 < n) && decide (n < getLength value)
  | none => false

def patternViolated (rule : ValidationRule) (value : JSVal) : Bool :=
  match rule.pattern with
  | some r => !(r.rtest (jsToString value))
  | none => false

/-- BookingValidationService.applyValidationRule: required first, then an early
return on any empty value, then length bounds, pattern, and custom. -/
def applyValidationRule (fieldName : String) (value : JSVal) (rule : ValidationRule)
    (formData : BookingFormData) (step : Int) : Option BookingValidationError :=
  if rule.required && isEmpty value then
    some ⟨step, fieldName, humanizeFieldName fieldName ++ " is required", "REQUIRED"⟩
  else if isEmpty value then
    none
  else if minLengthViolated rule value then
    some ⟨step, fieldName,
      humanizeFieldName fieldName ++ " must be at least " ++
        toString (rule.minLength.getD 0) ++ " characters", "MIN_LENGTH"⟩
  else if maxLengthViolated rule value then
    some ⟨step, fieldName,
      humanizeFieldName fieldName ++ " must be no more than " ++
        toString (rule.maxLength.getD 0) ++ " characters", "MAX_LENGTH"⟩
  else if patternViolated rule value then
    some ⟨step, fieldName, getPatternErrorMessage fieldName, "INVALID_FORMAT"⟩
  else
    match rule.custom with
    | some f =>
        match f value formData with
        | some msg => some ⟨step, fieldName, msg, "CUSTOM_VALIDATION"⟩
        | none => none
    | none => none

/-- BookingValidationService.validateField: apply every rule in order and
collect the errors. -/
def validateField (fieldName : String) (value : JSVal) (rules : List ValidationRule)
    (formData : BookingFormData) (step : Int) : List BookingValidationError :=
  rules.filterMap (fun rule => applyValidationRule fieldName value rule formData step)

def schemaStep (schema : BookingValidationSchema) : StepKey → StepValidation
  | .step1 => schema.step1
  | .step2 => schema.step2
  | .step3 => schema.step3
  | .step4 => schema.step4
  | .step5 => schema.step5

/-- BookingValidationService.validateStep: look up the schema for the step and
validate every declared field path against the step data. -/
def validateStep (clock : Clock) (step : Int) (formData : BookingFormData) :
    List BookingValidationError :=
  match getStepKey step with
  | none => []
  | some key =>
      let stepValidation := schemaStep (createValidationSchema clock) key
      let stepData := stepDataJS formData key
      (stepValidation.map (fun entry =>
        validateField entry.1 (getNestedValue stepData entry.1) entry.2 formData step)).flatten

/-- BookingValidationService.validateAllSteps: steps 1 through 5 in order. -/
def validateAllSteps (clock : Clock) (formData : BookingFormData) :
    List BookingValidationError :=
  ((List.range 5).map (fun i => validateStep clock ((i : Int) + 1) formData)).flatten

/-- BookingValidationService.isStepValid: zero errors for the step. -/
def isStepValid (clock : Clock) (step : Int) (formData : BookingFormData) : Bool :=
  (validateStep clock step formData).length == 0

/-- Truthiness of every contact field, as in the source. -/
def isContactInfoComplete (contactInfo : ContactInfo) : Bool :=
  contactInfo.firstName != "" && contactInfo.lastName != "" && contactInfo.email != "" &&
  contactInfo.phone != "" && contactInfo.preferredContact != ""

/-- BookingValidationService.isLocationComplete: a shop location needs a shop
reference, a mobile location needs street, city and ZIP. -/
def isLocationComplete (location : Location) : Bool :=
  match location.type with
  | .shop => location.shopLocation.isSome
  | .mobile =>
      match location.address with
      | some a => a.street != "" && a.city != "" && a.zipCode != ""
      | none => false

/-- BookingValidationService.canProceedToNextStep: the step must be valid and
satisfy its business completeness check. -/
def canProceedToNextStep (clock : Clock) (currentStep : Int) (formData : BookingFormData) :
    Bool :=
  if !(isStepValid clock currentStep formData) then false
  else if currentStep = BOOKING_STEPS_SERVICE_SELECTION then
    formData.step1.selectedService.isSome && formData.step1.selectedLevel.isSome
  else if currentStep = BOOKING_STEPS_VEHICLE_INFO then
    formData.step2.selectedVehicle.isSome
  else if currentStep = BOOKING_STEPS_DATE_TIME then
    formData.step3.selectedDate.isSome && formData.step3.selectedTimeSlot.isSome
  else if currentStep = BOOKING_STEPS_LOCATION_CONTACT then
    isContactInfoComplete formData.step4.contactInfo && isLocationComplete formData.step4.location
  else true

/-! ### Booking state machine (BookingService) -/

/-- BookingService.createInitialState. -/
def createInitialState : BookingState :=
  { currentStep := 1,
    isLoading := false,
    formData := {
      step1 := { selectedService := none, selectedLevel := none, preSelectedService := none },
      step2 := { selectedVehicle := none, isNewVehicle := false, vehicles := [] },
      step3 := { selectedDate := none, selectedTimeSlot := none, availableDays := [] },
      step4 := {
        location :=
          { type := .mobile,
            address := some ({ street := "", city := "", state := "", zipCode := "",
                               country := "US" } : Address) },
        contactInfo :=
          { firstName := "", lastName := "", email := "", phone := "",
            preferredContact := "email" } },
      step5 := { termsAccepted := false, marketingOptIn := false, specialRequests := some "" } },
    validationErrors := [],
    pricing := none,
    availableServices := [],
    availableLevels := [],
    savedVehicles := [],
    isSubmitting := false,
    submissionError := none }

/-- BookingService.goToStep: reject targets outside 1..MAX_BOOKING_STEPS; for a
forward move, require the current step to pass canProceedToNextStep, otherwise
append fresh validation errors for the current step and fail; on success set
the step. The returned pair is the state after the call and the observable
outcome. -/
def goToStep (clock : Clock) (step : Int) (s : BookingState) :
    BookingState × Except String Bool :=
  if step < 1 ∨ step > MAX_BOOKING_STEPS then
    (s, .error ("Invalid step: " ++ toString step))
  else if step > s.currentStep ∧ !(canProceedToNextStep clock s.currentStep s.formData) then
    ({ s with validationErrors :=
        s.validationErrors ++ validateStep clock s.currentStep s.formData },
     .error "Please complete current step before proceeding")
  else
    ({ s with currentStep := step }, .ok true)

/-- BookingService.nextStep delegates to goToStep at the next step. -/
def nextStep (clock : Clock) (s : BookingState) : BookingState × Except String Bool :=
  goToStep clock (s.currentStep + 1) s

/-- BookingService.previousStep delegates to goToStep at the previous step. -/
def previousStep (clock : Clock) (s : BookingState) : BookingState × Except String Bool :=
  goToStep clock (s.currentStep - 1) s

/-- The JavaScript price-or-zero expression applied to the optional surge price
of the selected slot. -/
def jsOrZero (price : Option ℚ) : ℚ :=
  match price with
  | some p => if p = 0 then 0 else p
  | none => 0

/-- BookingService.calculatePricing: fail when service, level or vehicle is
missing, leaving the state untouched; otherwise derive the breakdown in fixed
order and store it in the state. -/
def calculatePricing (s : BookingState) : BookingState × Except String PricingBreakdown :=
  match s.formData.step1.selectedService, s.formData.step1.selectedLevel,
        s.formData.step2.selectedVehicle with
  | some service, some lvl, some vehicle =>
      let servicePrice := service.basePrice
      let levelMultiplier := lvl.priceMultiplier
      let vehicleSizeMultiplier := VEHICLE_SIZE_MULTIPLIERS vehicle.sizeCategory
      let timeSlotSurcharge :=
        match s.formData.step3.selectedTimeSlot with
        | some slot => jsOrZero slot.price
        | none => 0
      let locationSurcharge := LOCATION_SURCHARGES s.formData.step4.location.type
      let subtotal := servicePrice * levelMultiplier * vehicleSizeMultiplier
      let totalSurcharges := timeSlotSurcharge + locationSurcharge
      let taxRate : ℚ := 0.08
      let taxes := (subtotal + totalSurcharges) * taxRate
      let total := subtotal + totalSurcharges + taxes
      let pricing : PricingBreakdown :=
        { servicePrice := subtotal,
          levelMultiplier := levelMultiplier,
          vehicleSizeMultiplier := vehicleSizeMultiplier,
          timeSlotSurcharge := timeSlotSurcharge,
          locationSurcharge := locationSurcharge,
          taxes := taxes,
          discounts := 0,
          total := total }
      ({ s with pricing := some pricing }, .ok pricing)
  | _, _, _ => (s, .error "Required selections not complete")

/-! Partial updates handed to BookingService.updateStepData. A field set to
none is absent from the partial object; a present field overwrites the
corresponding field of the step record (shallow merge). -/

structure Step1Patch where
  selectedService : Option (Option ServiceType) := none
  selectedLevel : Option (Option ServiceLevel) := none
  preSelectedService : Option (Option String) := none

structure Step2Patch where
  selectedVehicle : Option (Option Vehicle) := none
  isNewVehicle : Option Bool := none
  vehicles : Option (List Vehicle) := none

structure Step3Patch where
  selectedDate : Option (Option Int) := none
  selectedTimeSlot : Option (Option TimeSlot) := none
  availableDays : Option (List AvailableDay) := none

structure Step4Patch where
  location : Option Location := none
  contactInfo : Option ContactInfo := none

structure Step5Patch where
  termsAccepted : Option Bool := none
  marketingOptIn : Option Bool := none
  specialRequests : Option (Option String) := none

inductive StepPatch where
  | p1 (p : Step1Patch)
  | p2 (p : Step2Patch)
  | p3 (p : Step3Patch)
  | p4 (p : Step4Patch)
  | p5 (p : Step5Patch)

/-- The step number a partial update is addressed to in every call site. -/
def stepOfPatch : StepPatch → Int
  | .p1 _ => 1
  | .p2 _ => 2
  | .p3 _ => 3
  | .p4 _ => 4
  | .p5 _ => 5

/-- The shallow spread of the partial data over the addressed step record. -/
def mergePatch (formData : BookingFormData) : StepPatch → BookingFormData
  | .p1 p => { formData with step1 := {
      selectedService := p.selectedService.getD formData.step1.selectedService,
      selectedLevel := p.selectedLevel.getD formData.step1.selectedLevel,
      preSelectedService := p.preSelectedService.getD formData.step1.preSelectedService } }
  | .p2 p => { formData with step2 := {
      selectedVehicle := p.selectedVehicle.getD formData.step2.selectedVehicle,
      isNewVehicle := p.isNewVehicle.getD formData.step2.isNewVehicle,
      vehicles := p.vehicles.getD formData.step2.vehicles } }
  | .p3 p => { formData with step3 := {
      selectedDate := p.selectedDate.getD formData.step3.selectedDate,
      selectedTimeSlot := p.selectedTimeSlot.getD formData.step3.selectedTimeSlot,
      availableDays := p.availableDays.getD formData.step3.availableDays } }
  | .p4 p => { formData with step4 := {
      location := p.location.getD formData.step4.location,
      contactInfo := p.contactInfo.getD formData.step4.contactInfo } }
  | .p5 p => { formData with step5 := {
      termsAccepted := p.termsAccepted.getD formData.step5.termsAccepted,
      marketingOptIn := p.marketingOptIn.getD formData.step5.marketingOptIn,
      specialRequests := p.specialRequests.getD formData.step5.specialRequests } }

/-- BookingService.shouldRecalculatePricing: steps 1 through 4 are
pricing-relevant. -/
def shouldRecalculatePricing (step : Int) : Bool :=
  step == 1 || step == 2 || step == 3 || step == 4

/-- BookingService.updateStepData: merge the partial data into the addressed
step record, drop the validation errors recorded for that step, then, when the
step is pricing-relevant, recompute pricing from the state just written; a
pricing precondition failure is swallowed and leaves pricing as it was. -/
def updateStepData (patch : StepPatch) (s : BookingState) : BookingState :=
  let step := stepOfPatch patch
  let updatedFormData := mergePatch s.formData patch
  let updatedErrors := s.validationErrors.filter (fun e => e.step != step)
  let s1 := { s with formData := updatedFormData, validationErrors := updatedErrors }
  if shouldRecalculatePricing step then (calculatePricing s1).1 else s1

/-! ### Submission (BookingService.submitBooking) -/

/-- The POST payload assembled by BookingService.createBookingFromFormData.
The source reads the selections through runtime-no-op non-null assertions, so
the payload carries the optional values exactly as stored. -/
structure BookingRecord where
  service : Option ServiceType
  serviceLevel : Option ServiceLevel
  vehicle : Option Vehicle
  scheduledDate : Option Int
  timeSlot : Option TimeSlot
  location : Location
  contactInfo : ContactInfo
  pricing : Option PricingBreakdown
  specialInstructions : Option String
  status : String
  paymentStatus : String
  createdAt : Int
  updatedAt : Int
  deriving DecidableEq

def createBookingFromFormData (clock : Clock) (formData : BookingFormData)
    (pricing : Option PricingBreakdown) : BookingRecord :=
  { service := formData.step1.selectedService,
    serviceLevel := formData.step1.selectedLevel,
    vehicle := formData.step2.selectedVehicle,
    scheduledDate := formData.step3.selectedDate,
    timeSlot := formData.step3.selectedTimeSlot,
    location := formData.step4.location,
    contactInfo := formData.step4.contactInfo,
    pricing := pricing,
    specialInstructions := formData.step5.specialRequests,
    status := "pending",
    paymentStatus := "pending",
    createdAt := clock.now,
    updatedAt := clock.now }

/-- What submitBooking does before the suspension point: it either fails with
the accumulated validation errors, or reaches the POST to the external API
with the assembled payload. -/
inductive SubmitOutcome where
  | validationFailure (message : String)
  | networkRequest (payload : BookingRecord)
  deriving DecidableEq

/-- BookingService.submitBooking up to the network boundary: run
validateAllSteps; on any error record all errors and fail without a request;
otherwise mark the state submitting and issue the POST with the payload built
from the form data and the stored pricing, unchecked. -/
def submitBooking (clock : Clock) (s : BookingState) : BookingState × SubmitOutcome :=
  let allErrors := validateAllSteps clock s.formData
  if allErrors.length > 0 then
    ({ s with validationErrors := allErrors }, .validationFailure "Validation errors exist")
  else
    ({ s with isSubmitting := true, submissionError := none },
     .networkRequest (createBookingFromFormData clock s.formData s.pricing))

/-! ### Navigation action sequences, for the step-progression invariant -/

inductive NavAct where
  | next
  | prev

def applyNav (clock : Clock) (s : BookingState) : NavAct → BookingState
  | .next => (nextStep clock s).1
  | .prev => (previousStep clock s).1

def navRun (clock : Clock) (s : BookingState) (acts : List NavAct) : BookingState :=
  acts.foldl (applyNav clock) s

/-- Every step strictly below the current one passes validation and its
business completeness check. -/
def navInv (clock : Clock) (s : BookingState) : Prop :=
  ∀ n : Int, 1 ≤ n → n < s.currentStep → canProceedToNextStep clock n s.formData = true

/-! ### Concrete fixtures used by the closed theorems -/

/-- A fixed ambient clock: year 2026, with arbitrary start-of-day and now. -/
def clock0 : Clock :=
  { currentYear := 2026, todayStart := 1760140800000, now := 1760200000000 }

/-- The first mock service of BookingService.getMockServices. -/
def exteriorWashService : ServiceType :=
  { id := "1", name := "Exterior Wash",
    description := "Complete exterior cleaning and detailing",
    basePrice := 75, duration := 60, category := "exterior", available := true }

/-- The premium mock level of BookingService.getMockServiceLevels. -/
def premiumLevel : ServiceLevel :=
  { id := "premium", name := "Premium",
    description := "Enhanced service with premium products",
    priceMultiplier := 1.3,
    features := ["Premium wash", "Deep vacuum", "Tire shine", "Interior protection"] }

def mediumVehicle : Vehicle :=
  { make := "Toyota", model := "Camry", year := 2020, color := "Blue",
    licensePlate := "ABC-123", vehicleType := "sedan", sizeCategory := .medium }

def validContact : ContactInfo :=
  { firstName := "John", lastName := "Doe", email := "john@example.com",
    phone := "555-123-4567", preferredContact := "email" }

/-- A time slot with a 25 surge price. -/
def surgeSlot : TimeSlot :=
  { id := "s1", startTime := 1760400000000, endTime := 1760403600000,
    available := true, price := some 25 }

def emptyUsAddress : Address :=
  { street := "", city := "", state := "", zipCode := "", country := "US" }

def filledUsAddress : Address :=
  { street := "1 Main St", city := "Springfield", state := "IL", zipCode := "62701",
    country := "US" }

/-- Form data with step 1 completed and everything else still initial. -/
def step1CompleteForm : BookingFormData :=
  { createInitialState.formData with
    step1 := { selectedService := some exteriorWashService,
               selectedLevel := some premiumLevel } }

def step1CompleteState : BookingState :=
  { createInitialState with formData := step1CompleteForm }

/-- Step 4 data with a complete contact, a shop location and no shop
reference. -/
def shopNoRefForm : BookingFormData :=
  { createInitialState.formData with
    step4 := { location := { type := .shop, address := some emptyUsAddress },
               contactInfo := validContact } }

/-- Step 4 data with a mobile location whose street, city and ZIP are all
empty strings. -/
def mobileEmptyAddressForm : BookingFormData :=
  { createInitialState.formData with
    step4 := { location := { type := .mobile, address := some emptyUsAddress },
               contactInfo := validContact } }

/-- A form complete in every step except that no vehicle is selected. -/
def completeNoVehicleForm : BookingFormData :=
  { step1 := { selectedService := some exteriorWashService,
               selectedLevel := some premiumLevel },
    step2 := { selectedVehicle := none, isNewVehicle := false, vehicles := [] },
    step3 := { selectedDate := some 1760400000000, selectedTimeSlot := some surgeSlot,
               availableDays := [] },
    step4 := { location := { type := .mobile, address := some filledUsAddress },
               contactInfo := validContact },
    step5 := { termsAccepted := true, marketingOptIn := false, specialRequests := some "" } }

def completeNoVehicleState : BookingState :=
  { createInitialState with formData := completeNoVehicleForm }

/-- The state of the pricing scenario: basePrice 75, level multiplier 1.3,
medium vehicle, slot surcharge 25, mobile location. -/
def pricingScenarioState : BookingState :=
  { createInitialState with formData :=
      { createInitialState.formData with
        step1 := { selectedService := some exteriorWashService,
                   selectedLevel := some premiumLevel },
        step2 := { selectedVehicle := some mediumVehicle, isNewVehicle := false,
                   vehicles := [] },
        step3 := { selectedDate := some 1760400000000, selectedTimeSlot := some surgeSlot,
                   availableDays := [] } } }

/-! ### Helper lemmas -/

theorem applyValidationRule_field_eq (fieldName : String) (value : JSVal)
    (rule : ValidationRule) (formData : BookingFormData) (step : Int)
    (e : BookingValidationError)
    (h : applyValidationRule fieldName value rule formData step = some e) :
    e.field = fieldName := by
  unfold applyValidationRule at h
  split_ifs at h <;>
    first
      | (cases h; rfl)
      | (split at h <;>
          first
            | exact absurd h (by simp)
            | (split at h <;> (cases h <;> rfl)))

theorem validateField_field_eq (fieldName : String) (value : JSVal)
    (rules : List ValidationRule) (formData : BookingFormData) (step : Int) :
    ∀ e ∈ validateField fieldName value rules formData step, e.field = fieldName := by
  intro e he
  unfold validateField at he
  obtain ⟨rule, _, hr⟩ := List.mem_filterMap.mp he
  exact applyValidationRule_field_eq fieldName value rule formData step e hr

/-- Whatever the step-3 data holds, the first error validateStep reports for
step 3 is the required error for selectedDate: a null date is empty, and a
Date object is also empty because it has no own enumerable keys. -/
theorem validateStep3_head (clock : Clock) (formData : BookingFormData) :
    ∃ rest, validateStep clock 3 formData =
      { step := 3, field := "selectedDate", message := "Selected Date is required",
        code := "REQUIRED" } :: rest := by
  obtain ⟨s1, s2, ⟨sd, sts, days⟩, s4, s5⟩ := formData
  cases sd <;> cases sts <;> exact ⟨_, rfl⟩

theorem validateStep3_ne_nil (clock : Clock) (formData : BookingFormData) :
    validateStep clock 3 formData ≠ [] := by
  obtain ⟨rest, h3⟩ := validateStep3_head clock formData
  rw [h3]
  exact List.cons_ne_nil _ _

/-- The full-form validation always reports at least the step-3 selectedDate
error, so it never returns an empty list. -/
theorem validateAllSteps_ne_nil (clock : Clock) (formData : BookingFormData) :
    validateAllSteps clock formData ≠ [] := by
  obtain ⟨rest, h3⟩ := validateStep3_head clock formData
  intro hnil
  have hm : ({ step := 3, field := "selectedDate",
               message := "Selected Date is required",
               code := "REQUIRED" } : BookingValidationError) ∈
      validateAllSteps clock formData := by
    unfold validateAllSteps
    refine List.mem_flatten.mpr ⟨validateStep clock 3 formData, ?_, ?_⟩
    · exact List.mem_map.mpr ⟨2, by decide, rfl⟩
    · rw [h3]
      exact List.mem_cons_self _ _
  rw [hnil] at hm
  exact List.not_mem_nil _ hm

/-! ### Claim theorems -/

/-- C3: for every BookingFormData, validateStep 3 contains a REQUIRED error for
selectedDate, whether the date is null or an actual Date value, because
isEmpty classifies a Date (an object with zero own enumerable keys) as
empty; consequently isStepValid 3 and canProceedToNextStep 3 are false for
every form data and every clock. -/
theorem step3_selectedDate_always_required (clock : Clock) (formData : BookingFormData) :
    (∃ e ∈ validateStep clock 3 formData, e.field = "selectedDate" ∧ e.code = "REQUIRED") ∧
    isStepValid clock 3 formData = false ∧
    canProceedToNextStep clock 3 formData = false := by
  obtain ⟨rest, h3⟩ := validateStep3_head clock formData
  have hv : isStepValid clock 3 formData = false := by
    unfold isStepValid
    rw [h3]
    rfl
  refine ⟨⟨_, by rw [h3]; exact List.mem_cons_self _ _, rfl, rfl⟩, hv, ?_⟩
  unfold canProceedToNextStep
  rw [hv]
  rfl

/-- C5: calculatePricing fails with the precondition error and returns the
state unchanged (pricing included) whenever the service, the level or the
vehicle selection is missing; it produces no default breakdown. -/
theorem calculatePricing_fails_without_selections (s : BookingState)
    (h : s.formData.step1.selectedService = none ∨ s.formData.step1.selectedLevel = none ∨
         s.formData.step2.selectedVehicle = none) :
    calculatePricing s = (s, Except.error "Required selections not complete") := by
  unfold calculatePricing
  rcases hs : s.formData.step1.selectedService with _ | service <;>
    rcases hl : s.formData.step1.selectedLevel with _ | lvl <;>
      rcases hv : s.formData.step2.selectedVehicle with _ | vehicle <;>
        simp_all

/-- Witness for C5 at the initial state, whose selections are all null. -/
theorem calculatePricing_fails_without_selections_witness :
    (createInitialState.formData.step1.selectedService = none ∨
     createInitialState.formData.step1.selectedLevel = none ∨
     createInitialState.formData.step2.selectedVehicle = none) ∧
    calculatePricing createInitialState =
      (createInitialState, Except.error "Required selections not complete") :=
  ⟨Or.inl rfl, calculatePricing_fails_without_selections createInitialState (Or.inl rfl)⟩

/-- C9: goToStep with a target below 1 or above 5 fails with the invalid-step
error and returns the state completely unchanged. -/
theorem goToStep_out_of_range_pure_failure (clock : Clock) (n : Int) (s : BookingState)
    (h : n < 1 ∨ n > 5) :
    goToStep clock n s = (s, Except.error ("Invalid step: " ++ toString n)) := by
  unfold goToStep
  rw [if_pos]
  exact h

/-- Witness for C9 at target 0 and the initial state. -/
theorem goToStep_out_of_range_pure_failure_witness :
    ((0 : Int) < 1 ∨ (0 : Int) > 5) ∧
    goToStep clock0 0 createInitialState =
      (createInitialState, Except.error "Invalid step: 0") :=
  ⟨Or.inl (by decide),
   goToStep_out_of_range_pure_failure clock0 0 createInitialState (Or.inl (by decide))⟩

/-- C6: whenever validateAllSteps reports any error, submitBooking records all
the accumulated errors in the state and fails with a validation failure,
issuing no network request. -/
theorem submitBooking_fails_fast_on_validation (clock : Clock) (s : BookingState)
    (h : validateAllSteps clock s.formData ≠ []) :
    submitBooking clock s =
      ({ s with validationErrors := validateAllSteps clock s.formData },
       SubmitOutcome.validationFailure "Validation errors exist") := by
  unfold submitBooking
  rw [if_pos]
  exact List.length_pos.mpr h

/-- Witness for C6 at a form complete except for the missing vehicle: the
submission fails before the network boundary, and the recorded errors include
a step-2 error, so validation fails at step 2. -/
theorem submitBooking_fails_fast_on_validation_witness :
    validateAllSteps clock0 completeNoVehicleState.formData ≠ [] ∧
    (submitBooking clock0 completeNoVehicleState).2 =
      SubmitOutcome.validationFailure "Validation errors exist" ∧
    (validateAllSteps clock0 completeNoVehicleState.formData).any
      (fun e => e.step == 2) = true := by
  refine ⟨by decide, ?_, by decide⟩
  rw [submitBooking_fails_fast_on_validation clock0 completeNoVehicleState (by decide)]

/-- C7 (code bug): the source never performs the null-pricing precondition
check the specification demands. The non-null assertion on the stored pricing
is a runtime no-op, so the payload assembled by createBookingFromFormData
carries exactly the stored optional pricing, null included; and the guarded
branch is unreachable anyway, because full-form validation never passes (the
step-3 selectedDate error always fires), so every call to submitBooking ends
as a validation failure and no distinct precondition failure exists. -/
theorem submitBooking_has_no_pricing_precondition :
    (∀ (clock : Clock) (s : BookingState),
      submitBooking clock s =
        ({ s with validationErrors := validateAllSteps clock s.formData },
         SubmitOutcome.validationFailure "Validation errors exist")) ∧
    (∀ (clock : Clock) (formData : BookingFormData),
      (createBookingFromFormData clock formData none).pricing = none) := by
  constructor
  · intro clock s
    unfold submitBooking
    rw [if_pos]
    exact List.length_pos.mpr (validateAllSteps_ne_nil clock s.formData)
  · intro clock formData
    rfl

/-- C8: canProceedToNextStep is false whenever validateStep is non-empty; and
there is a step and form data (step 4 with a complete contact, a shop
location and no shop reference) on which validateStep is empty yet
canProceedToNextStep is still false. -/
theorem canProceed_two_directions :
    (∀ (clock : Clock) (step : Int) (formData : BookingFormData),
      validateStep clock step formData ≠ [] →
      canProceedToNextStep clock step formData = false) ∧
    (validateStep clock0 4 shopNoRefForm = [] ∧
     canProceedToNextStep clock0 4 shopNoRefForm = false) := by
  constructor
  · intro clock step formData h
    have hv : isStepValid clock step formData = false := by
      unfold isStepValid
      cases hvs : validateStep clock step formData with
      | nil => exact absurd hvs h
      | cons a l => rfl
    unfold canProceedToNextStep
    rw [hv]
    rfl
  · exact ⟨by decide, by decide⟩

/-- Witness for C8 applying the universal direction at step 2 of the initial
form data, where the missing vehicle produces validation errors. -/
theorem canProceed_two_directions_witness :
    validateStep clock0 2 createInitialState.formData ≠ [] ∧
    canProceedToNextStep clock0 2 createInitialState.formData = false :=
  ⟨by decide,
   canProceed_two_directions.1 clock0 2 createInitialState.formData (by decide)⟩

/-- C1: with service, level and vehicle selected, calculatePricing succeeds and
stores a breakdown whose servicePrice is basePrice times level multiplier
times the size-table factor, whose slot surcharge is zero without a slot or
without a surge price, whose location surcharge comes from the location
table, whose taxes are eight percent of subtotal plus surcharges, whose
discounts are zero and whose total is subtotal plus surcharges plus taxes;
the two lookup tables hold the fixed factors. -/
theorem calculatePricing_breakdown (s : BookingState) (service : ServiceType)
    (lvl : ServiceLevel) (vehicle : Vehicle)
    (hs : s.formData.step1.selectedService = some service)
    (hl : s.formData.step1.selectedLevel = some lvl)
    (hv : s.formData.step2.selectedVehicle = some vehicle) :
    ∃ p : PricingBreakdown,
      calculatePricing s = ({ s with pricing := some p }, Except.ok p) ∧
      p.servicePrice =
        service.basePrice * lvl.priceMultiplier *
          VEHICLE_SIZE_MULTIPLIERS vehicle.sizeCategory ∧
      p.levelMultiplier = lvl.priceMultiplier ∧
      p.vehicleSizeMultiplier = VEHICLE_SIZE_MULTIPLIERS vehicle.sizeCategory ∧
      p.timeSlotSurcharge =
        (match s.formData.step3.selectedTimeSlot with
         | some slot => jsOrZero slot.price
         | none => 0) ∧
      (s.formData.step3.selectedTimeSlot = none → p.timeSlotSurcharge = 0) ∧
      (∀ slot, s.formData.step3.selectedTimeSlot = some slot → slot.price = none →
        p.timeSlotSurcharge = 0) ∧
      p.locationSurcharge = LOCATION_SURCHARGES s.formData.step4.location.type ∧
      p.taxes = (p.servicePrice + p.timeSlotSurcharge + p.locationSurcharge) * 0.08 ∧
      p.discounts = 0 ∧
      p.total = p.servicePrice + p.timeSlotSurcharge + p.locationSurcharge + p.taxes ∧
      VEHICLE_SIZE_MULTIPLIERS SizeCategory.small = 1.0 ∧
      VEHICLE_SIZE_MULTIPLIERS SizeCategory.medium = 1.2 ∧
      VEHICLE_SIZE_MULTIPLIERS SizeCategory.large = 1.5 ∧
      VEHICLE_SIZE_MULTIPLIERS SizeCategory.xlarge = 2.0 ∧
      LOCATION_SURCHARGES LocationType.mobile = 25 ∧
      LOCATION_SURCHARGES LocationType.shop = 0 := by
  simp only [calculatePricing, hs, hl, hv]
  refine ⟨_, rfl, rfl, rfl, rfl, rfl, ?_, ?_, rfl, ?_, rfl, ?_, rfl, rfl, rfl, rfl, rfl, rfl⟩
  · intro hn
    simp only [hn]
  · intro slot hslot hp
    simp only [hslot, hp, jsOrZero]
  · ring
  · ring

/-- Witness for C1 at the spec scenario: basePrice 75, multiplier 1.3, medium
vehicle (1.2), slot surcharge 25, mobile location: subtotal 117, surcharges
50, taxes 13.36, total 180.36. -/
theorem calculatePricing_breakdown_witness :
    pricingScenarioState.formData.step1.selectedService = some exteriorWashService ∧
    pricingScenarioState.formData.step1.selectedLevel = some premiumLevel ∧
    pricingScenarioState.formData.step2.selectedVehicle = some mediumVehicle ∧
    ∃ p : PricingBreakdown,
      calculatePricing pricingScenarioState =
        ({ pricingScenarioState with pricing := some p }, Except.ok p) ∧
      p.servicePrice = 117 ∧
      p.timeSlotSurcharge + p.locationSurcharge = 50 ∧
      p.taxes = 13.36 ∧
      p.discounts = 0 ∧
      p.total = 180.36 := by
  obtain ⟨p, hcalc, hsp, hlm, hvm, hts, -, -, hloc, htax, hdisc, htot, -⟩ :=
    calculatePricing_breakdown pricingScenarioState exteriorWashService premiumLevel
      mediumVehicle rfl rfl rfl
  have hsp117 : p.servicePrice = 117 := by
    rw [hsp]
    norm_num [exteriorWashService, premiumLevel, mediumVehicle, VEHICLE_SIZE_MULTIPLIERS]
  have hts25 : p.timeSlotSurcharge = 25 := by
    rw [hts]
    norm_num [pricingScenarioState, surgeSlot, jsOrZero]
  have hloc25 : p.locationSurcharge = 25 := by
    rw [hloc]
    norm_num [pricingScenarioState, createInitialState, LOCATION_SURCHARGES]
  refine ⟨rfl, rfl, rfl, p, hcalc, hsp117, by rw [hts25, hloc25]; norm_num, ?_, hdisc, ?_⟩
  · rw [htax, hsp117, hts25, hloc25]
    norm_num
  · rw [htot, hsp117, hts25, hloc25, htax, hsp117, hts25, hloc25]
    norm_num

/-- C10: with service and level selected, updateStepData at step 2 with a
patch replacing the vehicle merges the new vehicle, clears the step-2
validation errors, and the triggered pricing recomputation observes the
just-written vehicle: the stored breakdown's size multiplier is the table
factor of the new vehicle's size category, derived from the state the update
just wrote. -/
theorem updateStepData_then_pricing_fresh (s : BookingState) (patch : Step2Patch)
    (v : Vehicle) (service : ServiceType) (lvl : ServiceLevel)
    (hs : s.formData.step1.selectedService = some service)
    (hl : s.formData.step1.selectedLevel = some lvl)
    (hp : patch.selectedVehicle = some (some v)) :
    (updateStepData (StepPatch.p2 patch) s).formData.step2.selectedVehicle = some v ∧
    (updateStepData (StepPatch.p2 patch) s).validationErrors =
      s.validationErrors.filter (fun e => e.step != 2) ∧
    ∃ pb : PricingBreakdown,
      (updateStepData (StepPatch.p2 patch) s).pricing = some pb ∧
      pb.vehicleSizeMultiplier = VEHICLE_SIZE_MULTIPLIERS v.sizeCategory ∧
      pb.servicePrice =
        service.basePrice * lvl.priceMultiplier * VEHICLE_SIZE_MULTIPLIERS v.sizeCategory := by
  simp only [updateStepData, stepOfPatch, shouldRecalculatePricing, mergePatch,
    calculatePricing, hs, hl, hp, Option.getD]
  exact ⟨rfl, rfl, _, rfl, rfl, rfl⟩

/-- Witness for C10 at the step-1-complete state patched with the medium
vehicle: the recomputed multiplier is the medium factor 1.2. -/
theorem updateStepData_then_pricing_fresh_witness :
    step1CompleteState.formData.step1.selectedService = some exteriorWashService ∧
    step1CompleteState.formData.step1.selectedLevel = some premiumLevel ∧
    ∃ pb : PricingBreakdown,
      (updateStepData
        (StepPatch.p2 { selectedVehicle := some (some mediumVehicle),
                        isNewVehicle := some false }) step1CompleteState).pricing = some pb ∧
      pb.vehicleSizeMultiplier = 1.2 := by
  obtain ⟨-, -, pb, hpb, hvm, -⟩ :=
    updateStepData_then_pricing_fresh step1CompleteState
      { selectedVehicle := some (some mediumVehicle), isNewVehicle := some false }
      mediumVehicle exteriorWashService premiumLevel rfl rfl rfl
  exact ⟨rfl, rfl, pb, hpb, hvm.trans rfl⟩

/-- A single navigation action preserves the below-current-step invariant:
goToStep only moves forward by one through nextStep after checking
canProceedToNextStep for the departing step, and previousStep never needs
it. -/
theorem applyNav_preserves_navInv (clock : Clock) (s : BookingState) (a : NavAct)
    (h : navInv clock s) : navInv clock (applyNav clock s a) := by
  cases a with
  | next =>
      unfold applyNav nextStep goToStep
      split_ifs with h1 h2
      · exact h
      · intro n hn1 hn2
        exact h n hn1 hn2
      · intro n hn1 hn2
        have hn2' : n < s.currentStep + 1 := hn2
        have hcp : canProceedToNextStep clock s.currentStep s.formData = true := by
          cases hcp : canProceedToNextStep clock s.currentStep s.formData with
          | true => rfl
          | false => exact absurd ⟨lt_add_one _, by rw [hcp]; rfl⟩ h2
        rcases lt_or_eq_of_le (Int.lt_add_one_iff.mp hn2') with hlt | heq
        · exact h n hn1 hlt
        · rw [heq]
          exact hcp
  | prev =>
      unfold applyNav previousStep goToStep
      split_ifs with h1 h2
      · exact h
      · exact absurd h2.1 (by omega)
      · intro n hn1 hn2
        have hn2' : n < s.currentStep - 1 := hn2
        exact h n hn1 (by omega)

/-- C2 (amended): forward navigation validates only the departing step, so
under sequences of the single-step transitions nextStep and previousStep the
invariant holds: the current step can sit above step n only if step n passes
validation and its completeness check on the (unchanged) form data. -/
theorem navRun_single_step_invariant (clock : Clock) (s : BookingState)
    (acts : List NavAct) (h : navInv clock s) :
    navInv clock (navRun clock s acts) := by
  induction acts generalizing s with
  | nil => exact h
  | cons a rest ih => exact ih (applyNav clock s a) (applyNav_preserves_navInv clock s a h)

/-- Witness for C2: running nextStep once from the initial state, whose
invariant holds vacuously. -/
theorem navRun_single_step_invariant_witness :
    navInv clock0 (navRun clock0 createInitialState [NavAct.next]) := by
  refine navRun_single_step_invariant clock0 createInitialState [NavAct.next] ?_
  intro n h1 h2
  have h2' : n < 1 := h2
  omega

/-- C2 counterexample: from a state at step 1 whose step 1 is complete but
whose step 2 has no vehicle, goToStep 3 succeeds, placing currentStep at 3,
strictly above step 2, even though step 2 fails canProceedToNextStep; only
the departing step 1 was validated, refuting the claim that no transition
sequence can place currentStep above a failing step. -/
theorem goToStep_skips_unvalidated_step_cex :
    step1CompleteState.currentStep = 1 ∧
    canProceedToNextStep clock0 2 step1CompleteState.formData = false ∧
    (goToStep clock0 3 step1CompleteState).2 = Except.ok true ∧
    (goToStep clock0 3 step1CompleteState).1.currentStep = 3 ∧
    (goToStep clock0 3 step1CompleteState).1.formData = step1CompleteState.formData :=
  ⟨rfl, by decide, rfl, by decide, rfl⟩

/-- The runtime value the step-4 validation reads for the street path. -/
theorem step4_street_value (formData : BookingFormData) (a : Address)
    (ha : formData.step4.location.address = some a) :
    getNestedValue (stepDataJS formData StepKey.step4) "location.address.street" =
      JSVal.str a.street := by
  obtain ⟨s1, s2, s3, ⟨⟨ty, addr, shopl⟩, ci⟩, s5⟩ := formData
  have ha' : addr = some a := ha
  subst ha'
  rfl

/-- The runtime value the step-4 validation reads for the city path. -/
theorem step4_city_value (formData : BookingFormData) (a : Address)
    (ha : formData.step4.location.address = some a) :
    getNestedValue (stepDataJS formData StepKey.step4) "location.address.city" =
      JSVal.str a.city := by
  obtain ⟨s1, s2, s3, ⟨⟨ty, addr, shopl⟩, ci⟩, s5⟩ := formData
  have ha' : addr = some a := ha
  subst ha'
  rfl

/-- The runtime value the step-4 validation reads for the zipCode path. -/
theorem step4_zip_value (formData : BookingFormData) (a : Address)
    (ha : formData.step4.location.address = some a) :
    getNestedValue (stepDataJS formData StepKey.step4) "location.address.zipCode" =
      JSVal.str a.zipCode := by
  obtain ⟨s1, s2, s3, ⟨⟨ty, addr, shopl⟩, ci⟩, s5⟩ := formData
  have ha' : addr = some a := ha
  subst ha'
  rfl

/-- C4 (amended): when street, city and zipCode are all empty strings, the
step-4 validation reports zero errors for those three fields, for a mobile
location just as for a shop one: applyValidationRule returns early on every
empty value before reaching the conditional required-for-mobile custom
validators, so they never fire. -/
theorem empty_address_fields_never_error (clock : Clock) (formData : BookingFormData)
    (a : Address) (ha : formData.step4.location.address = some a)
    (hst : a.street = "") (hci : a.city = "") (hzi : a.zipCode = "") :
    (validateStep clock 4 formData).filter (fun e =>
      e.field == "location.address.street" || e.field == "location.address.city" ||
      e.field == "location.address.zipCode") = [] := by
  rw [List.filter_eq_nil_iff]
  intro e he
  replace he : e ∈ ((schemaStep (createValidationSchema clock) StepKey.step4).map
      (fun entry => validateField entry.1
        (getNestedValue (stepDataJS formData StepKey.step4) entry.1)
        entry.2 formData 4)).flatten := he
  obtain ⟨l, hl, hel⟩ := List.mem_flatten.mp he
  obtain ⟨entry, hentry, rfl⟩ := List.mem_map.mp hl
  have hfield := validateField_field_eq entry.1 _ entry.2 formData 4 e hel
  simp only [createValidationSchema, schemaStep, List.mem_cons, List.not_mem_nil,
    or_false] at hentry
  rcases hentry with rfl | rfl | rfl | rfl | rfl | rfl | rfl | rfl | rfl
  · rw [hfield]; decide
  · rw [hfield]; decide
  · rw [hfield]; decide
  · rw [hfield]; decide
  · rw [hfield]; decide
  · rw [hfield]; decide
  · rw [step4_street_value formData a ha, hst] at hel
    exact absurd hel (List.not_mem_nil e)
  · rw [step4_city_value formData a ha, hci] at hel
    exact absurd hel (List.not_mem_nil e)
  · rw [step4_zip_value formData a ha, hzi] at hel
    exact absurd hel (List.not_mem_nil e)

/-- Witness for C4 (amended) at the mobile form with the empty address. -/
theorem empty_address_fields_never_error_witness :
    mobileEmptyAddressForm.step4.location.address = some emptyUsAddress ∧
    emptyUsAddress.street = "" ∧ emptyUsAddress.city = "" ∧ emptyUsAddress.zipCode = "" ∧
    (validateStep clock0 4 mobileEmptyAddressForm).filter (fun e =>
      e.field == "location.address.street" || e.field == "location.address.city" ||
      e.field == "location.address.zipCode") = [] :=
  ⟨rfl, rfl, rfl, rfl,
   empty_address_fields_never_error clock0 mobileEmptyAddressForm emptyUsAddress
     rfl rfl rfl rfl⟩

/-- C4 counterexample: at the concrete mobile form whose street, city and ZIP
are empty strings the step-4 validation contains zero errors for those three
fields, not the three distinct required-for-mobile errors the claim states. -/
theorem mobile_empty_address_zero_errors_cex :
    mobileEmptyAddressForm.step4.location.type = LocationType.mobile ∧
    (∃ a, mobileEmptyAddressForm.step4.location.address = some a ∧
      a.street = "" ∧ a.city = "" ∧ a.zipCode = "") ∧
    (validateStep clock0 4 mobileEmptyAddressForm).filter (fun e =>
      e.field == "location.address.street" || e.field == "location.address.city" ||
      e.field == "location.address.zipCode") = [] :=
  ⟨rfl, ⟨emptyUsAddress, rfl, rfl, rfl, rfl⟩, by decide⟩

end NasDetail
